import Mathlib

/-!
Verification of the TACO utility and kit-selection layer.

The definitions below are a shallow embedding of `taco-utils` UtilHelper
(file `src/unnamed/part_000`) and of the kit-selection flow exercised by
`src/src/taco-cli/test/kit.ts`.  Strings are Lean `String`s, JavaScript
objects are association lists or explicit structures, the filesystem and
stream behaviour is passed in as explicit outcome parameters.
-/

namespace Taco

/-- The `os.platform()` values distinguished by the code: `win32`, `darwin`,
`linux`, and anything else (which `tacoHome` rejects). -/
inductive Platform
| win32
| darwin
| linux
| otherPlat
deriving DecidableEq

/-- The slice of `process.env` that `UtilHelper.tacoHome` reads:
`TACO_HOME` (possibly absent), `APPDATA` and `HOME`. -/
structure ProcessEnv where
  tacoHomeVar : Option String
  appData : String
  homeDir : String

/-- `path.sep` for each platform. -/
def sepChar (p : Platform) : Char :=
  match p with
  | Platform.win32 => '\\'
  | _ => '/'

/-- `path.join(a, b)` modelled as concatenation with the platform separator. -/
def pathJoin (p : Platform) (a b : String) : String :=
  a ++ String.mk [sepChar p] ++ b

/-- The platform-default branch of `UtilHelper.tacoHome`: the `switch` on
`os.platform()` — `%APPDATA%/taco_home` on win32, `~/.taco_home` on darwin
and linux, and a thrown `UnexpectedPlatform` error otherwise. -/
def tacoHomeDefault (env : ProcessEnv) (p : Platform) : Except String String :=
  match p with
  | Platform.win32 => Except.ok (pathJoin Platform.win32 env.appData "taco_home")
  | Platform.darwin => Except.ok (pathJoin p env.homeDir ".taco_home")
  | Platform.linux => Except.ok (pathJoin p env.homeDir ".taco_home")
  | Platform.otherPlat => Except.error "UnexpectedPlatform"

/-- `UtilHelper.tacoHome`: returns `process.env["TACO_HOME"]` when that
variable is truthy (present and nonempty), otherwise the platform default.
A thrown error is modelled as `Except.error`. -/
def tacoHome (env : ProcessEnv) (p : Platform) : Except String String :=
  match env.tacoHomeVar with
  | some s => if s = "" then tacoHomeDefault env p else Except.ok s
  | none => tacoHomeDefault env p

/-- The structured error codes of `TacoErrorCodes` used by `UtilHelper`. -/
inductive TacoErrorCode
| failedFileRead
| failedFileWrite
| failedRecursiveCopy
deriving DecidableEq

/-- The event that settles the `copyFile` deferred: the write stream
(`newFile`, on `to`) emits `finish`, the write stream emits `error`, or the
read stream (`oldFile`, on `from`) emits `error`. -/
inductive CopyEvent
| writeFinish
| writeStreamError
| readStreamError
deriving DecidableEq

/-- A settled `Q` promise: resolved, or rejected with a wrapped error
carrying an error code and the path passed to `errorHelper.wrap`. -/
inductive CopyOutcome
| resolved
| rejected (code : TacoErrorCode) (p : String)
deriving DecidableEq

/-- `UtilHelper.copyFile(from, to)` as a function of which stream event
settles the promise.  Exactly as in the source: `newFile.on("finish")`
resolves; `newFile.on("error")` (the write stream on `to`) rejects with
`FailedFileRead` wrapping `to`; `oldFile.on("error")` (the read stream on
`from`) rejects with `FailedFileWrite` wrapping `from`. -/
def copyFile (source target : String) (ev : CopyEvent) : CopyOutcome :=
  match ev with
  | CopyEvent.writeFinish => CopyOutcome.resolved
  | CopyEvent.writeStreamError => CopyOutcome.rejected TacoErrorCode.failedFileRead target
  | CopyEvent.readStreamError => CopyOutcome.rejected TacoErrorCode.failedFileWrite source

/-- `UtilHelper.InvalidAppNameChars`, exactly as written in the source: a
map from character code to display character.  Note the source maps key 39
(the apostrophe) to the display character `/` (whose code is 47). -/
def InvalidAppNameChars : List (Nat × String) :=
  [(34, "\""), (36, "$"), (38, "&"), (39, "/"), (60, "<"), (92, "\\")]

/-- `UtilHelper.isValidCordovaAppName`: false iff some character has code
below 32 or its code is a key of `InvalidAppNameChars`. -/
def isValidCordovaAppName (s : String) : Bool :=
  s.data.all fun c =>
    !(c.toNat < 32 || (InvalidAppNameChars.lookup c.toNat).isSome)

/-- `UtilHelper.invalidAppNameCharacters`: the values of
`InvalidAppNameChars` in key order (`Object.keys` enumerates the numeric
keys in ascending order). -/
def invalidAppNameCharacters : List String :=
  InvalidAppNameChars.map Prod.snd

/-- `UtilHelper.cleanseOptions`: keep the entries whose key is not in the
exclusion list; a null/undefined exclusion list (`none`) keeps everything. -/
def cleanseOptions {V : Type} (options : List (String × V))
    (exclude : Option (List String)) : List (String × V) :=
  options.filter fun entry =>
    match exclude with
    | none => true
    | some ex => !(ex.elem entry.1)

/-- The `input.replace(/"/g, "\\\"")` step of `quotesAroundIfNecessary`. -/
def escapeQuotes : List Char → List Char
  | [] => []
  | c :: rest =>
    if c = '"' then '\\' :: '"' :: escapeQuotes rest
    else c :: escapeQuotes rest

/-- `UtilHelper.quotesAroundIfNecessary`: if the input contains a space,
escape every double quote and surround with double quotes; otherwise return
the input unchanged. -/
def quotesAroundIfNecessary (input : String) : String :=
  if input.data.contains ' ' then
    String.mk ('"' :: escapeQuotes input.data ++ ['"'])
  else input

/-- Outcome of one `fs.mkdirSync` attempt in `isPathValid`: it succeeds,
throws `ENOENT`, or throws some other error. -/
inductive MkdirOutcome
| created
| enoentErr
| otherError
deriving DecidableEq

/-- The `/^[a-zA-Z]:$/` drive-letter test of `isPathValid`. -/
def isDriveLetterSegment (s : String) : Bool :=
  match s.data with
  | [c, d] => c.isAlpha && d = ':'
  | _ => false

/-- Split a character list on a separator character, JavaScript
`String.prototype.split` style (an empty list splits to `[[]]`). -/
def splitOnChar (sep : Char) : List Char → List (List Char)
  | [] => [[]]
  | c :: rest =>
    let r := splitOnChar sep rest
    if c = sep then [] :: r
    else
      match r with
      | [] => [[c]]
      | h :: t => (c :: h) :: t

/-- `pathToTest.split(path.sep)` as a list of segment strings. -/
def pathSegments (p : Platform) (s : String) : List String :=
  (splitOnChar (sepChar p) s.data).map fun l => String.mk l

/-- The segment loop of `UtilHelper.isPathValid` (`.some` over the
segments).  `outcome i` is what `fs.mkdirSync` does for the segment at
index `i`; `acc` is the chain of segments successfully created below the
scratch directory (the mutable `currentPath`).  Returns the
`hasInvalidSegments` flag and the final `currentPath` suffix.  The first
segment is skipped when it is a drive letter on win32; `ENOENT` stops the
loop reporting an invalid segment; any other error is swallowed and the
loop continues without descending. -/
def probeSegments (p : Platform) (outcome : Nat → MkdirOutcome) :
    List String → Nat → List String → Bool × List String
  | [], _, acc => (false, acc)
  | seg :: rest, i, acc =>
    if i = 0 ∧ p = Platform.win32 ∧ isDriveLetterSegment seg = true then
      probeSegments p outcome rest (i + 1) acc
    else
      match outcome i with
      | MkdirOutcome.created => probeSegments p outcome rest (i + 1) (acc ++ [seg])
      | MkdirOutcome.enoentErr => (true, acc)
      | MkdirOutcome.otherError => probeSegments p outcome rest (i + 1) acc

/-- `UtilHelper.isPathValid`: true iff no tested segment failed with
`ENOENT`. -/
def isPathValid (p : Platform) (outcome : Nat → MkdirOutcome)
    (pathToTest : String) : Bool :=
  !(probeSegments p outcome (pathSegments p pathToTest) 0 []).1

/-- The directory the final `rimraf(currentPath, ...)` call of
`isPathValid` targets, as a component list: the scratch directory
(`path.join(os.tmpdir(), testDir)`, given as `scratch`) extended by every
segment the loop successfully created. -/
def rimrafTarget (scratch : List String) (p : Platform)
    (outcome : Nat → MkdirOutcome) (pathToTest : String) : List String :=
  scratch ++ (probeSegments p outcome (pathSegments p pathToTest) 0 []).2

/-! ### The kit-selection flow

The `taco kit` command implementation is not part of the sources at hand;
only its test suite (`src/src/taco-cli/test/kit.ts`) is.  The flow below is
therefore modelled from the spec (§4.1–§4.3) and pinned to the concrete
expectations of that test suite (`expectedCliTacoJsonKeyValues`,
`expectedKitTacoJsonKeyValues`, the expected error codes, and the expected
telemetry objects). -/

/-- A kit of the registry: its identifier and the Cordova CLI version it
pins (the test kit `5.1.1-Kit` pins CLI `5.1.1`). -/
structure Kit where
  kitId : String
  cliVersion : String
deriving DecidableEq

/-- The per-project `taco.json` manifest: an optional `kit` key and an
optional `cordova-cli` key. -/
structure Manifest where
  kit : Option String
  cordovaCli : Option String
deriving DecidableEq

/-- The error codes a failed selection surfaces: `InvalidKit` from
`resolveKit`, `InvalidVersion` from `resolveCordovaVersion`. -/
inductive SelectError
| invalidKit
| invalidVersion
deriving DecidableEq

/-- The target of a `taco kit select` invocation: `--kit <id>` or
`--cordova <version>`. -/
inductive SelectTarget
| kitTarget (id : String)
| cliTarget (version : String)
deriving DecidableEq

/-- Modelled from the spec: `KitRegistry.resolveKit` (§4.1) — the kit
command implementation is absent from the sources, only its tests are.
Looks the identifier up in the registry and fails with `InvalidKit` when it
is not there. -/
def resolveKit (reg : List Kit) (id : String) : Except SelectError Kit :=
  match reg.find? fun k => k.kitId = id with
  | some k => Except.ok k
  | none => Except.error SelectError.invalidKit

/-- Modelled from the spec: the "recognized semantic-version-like pattern"
of `KitRegistry.resolveCordovaVersion` (§4.1) — three dot-separated
nonempty digit groups, accepting the test's `"5.1.1"` and rejecting its
`"InvalidCordovaCliVersion"`. -/
def isSemverLike (v : String) : Bool :=
  let parts := splitOnChar '.' v.data
  parts.length = 3 && parts.all fun part => !part.isEmpty && part.all Char.isDigit

/-- Modelled from the spec: `KitRegistry.resolveCordovaVersion` (§4.1) —
fails with `InvalidVersion` when the string is not semantic-version-like. -/
def resolveCordovaVersion (v : String) : Except SelectError String :=
  if isSemverLike v then Except.ok v else Except.error SelectError.invalidVersion

/-- Modelled from the spec: the `KitSelectionFlow` transition (§4.3) — the
kit command implementation is absent from the sources.  On a kit target,
resolve the kit and rewrite the manifest; per the test suite's
`expectedKitTacoJsonKeyValues` a kit selection writes both the `kit` key
and the kit's pinned `cordova-cli` version.  On a CLI target, validate the
version and write only the `cordova-cli` key
(`expectedCliTacoJsonKeyValues`).  On failure the manifest is not written:
the returned state is the input manifest, paired with the error. -/
def applySelect (reg : List Kit) (t : SelectTarget) (m : Manifest) :
    Option SelectError × Manifest :=
  match t with
  | SelectTarget.kitTarget id =>
    match resolveKit reg id with
    | Except.ok k => (none, { kit := some id, cordovaCli := some k.cliVersion })
    | Except.error e => (some e, m)
  | SelectTarget.cliTarget v =>
    match resolveCordovaVersion v with
    | Except.ok v2 => (none, { kit := none, cordovaCli := some v2 })
    | Except.error e => (some e, m)

/-- The registry the test suite runs against: the kit `5.1.1-Kit` pinning
Cordova CLI `5.1.1`; the id `InvalidKit` is not in it. -/
def testRegistry : List Kit := [{ kitId := "5.1.1-Kit", cliVersion := "5.1.1" }]

/-- The manifest of a project in CliMode with CLI `5.1.1`
(`expectedCliTacoJsonKeyValues` in the test suite). -/
def cliManifest : Manifest := { kit := none, cordovaCli := some "5.1.1" }

/-- The manifest of a project in KitMode on kit `5.1.1-Kit`
(`expectedKitTacoJsonKeyValues` in the test suite: both keys present). -/
def kitManifest : Manifest := { kit := some "5.1.1-Kit", cordovaCli := some "5.1.1" }

/-- One telemetry value as the test suite inspects it: a PII flag and the
recorded value. -/
structure TelemetryValue where
  isPii : Bool
  value : String
deriving DecidableEq

/-- Modelled from the spec: the telemetry a kit command emits on success
(§4.3) — the command implementation is absent from the sources.  It records
the sub-command (not PII) and each option under an `options.` key, marking
the value PII exactly for the `json` output-path option, matching the
test suite's expected telemetry objects. -/
def kitCommandTelemetry (subCmd : String) (opts : List (String × String)) :
    List (String × TelemetryValue) :=
  ("subCommand", { isPii := false, value := subCmd }) ::
    opts.map fun kv => ("options." ++ kv.1, { isPii := kv.1 = "json", value := kv.2 })

end Taco

namespace Taco

/-- Claim C4: `tacoHome` returns the `TACO_HOME` environment variable when it
is set (to a truthy value); otherwise `%APPDATA%/taco_home` on win32,
`~/.taco_home` on darwin and linux, and an `UnexpectedPlatform` error on any
other platform. -/
theorem tacoHome_spec (env : ProcessEnv) (p : Platform) :
    (∀ s, env.tacoHomeVar = some s → s ≠ "" → tacoHome env p = Except.ok s) ∧
    (env.tacoHomeVar = none →
      (p = Platform.win32 →
        tacoHome env p = Except.ok (pathJoin Platform.win32 env.appData "taco_home")) ∧
      ((p = Platform.darwin ∨ p = Platform.linux) →
        tacoHome env p = Except.ok (pathJoin p env.homeDir ".taco_home")) ∧
      (p = Platform.otherPlat → tacoHome env p = Except.error "UnexpectedPlatform")) := by
  refine ⟨?_, ?_⟩
  · intro s hs hne
    simp [tacoHome, hs, hne]
  · intro hn
    refine ⟨?_, ?_, ?_⟩
    · intro hp; subst hp; simp [tacoHome, hn, tacoHomeDefault]
    · rintro (hp | hp) <;> subst hp <;> simp [tacoHome, hn, tacoHomeDefault]
    · intro hp; subst hp; simp [tacoHome, hn, tacoHomeDefault]

theorem tacoHome_spec_witness :
    tacoHome { tacoHomeVar := some "x", appData := "a", homeDir := "h" } Platform.linux =
      Except.ok "x" ∧
    tacoHome { tacoHomeVar := none, appData := "a", homeDir := "h" } Platform.otherPlat =
      Except.error "UnexpectedPlatform" :=
  ⟨(tacoHome_spec _ _).1 "x" rfl (by decide),
   ((tacoHome_spec { tacoHomeVar := none, appData := "a", homeDir := "h" } Platform.otherPlat).2
      rfl).2.2 rfl⟩

/-- Claim C3: the promise resolves exactly on the write stream's `finish`
event, but the error codes are attached to the wrong sides: a read-stream
failure is surfaced as `FailedFileWrite` (carrying the source path) and a
write-stream failure as `FailedFileRead` (carrying the target path) — the
code swaps the two codes. -/
theorem copyFile_error_codes_swapped :
    copyFile "missing.txt" "dest.txt" CopyEvent.readStreamError =
      CopyOutcome.rejected TacoErrorCode.failedFileWrite "missing.txt" ∧
    copyFile "src.txt" "locked.txt" CopyEvent.writeStreamError =
      CopyOutcome.rejected TacoErrorCode.failedFileRead "locked.txt" ∧
    ∀ (a b : String) (ev : CopyEvent),
      copyFile a b ev = CopyOutcome.resolved ↔ ev = CopyEvent.writeFinish := by
  refine ⟨by decide, by decide, ?_⟩
  intro a b ev
  cases ev <;> simp [copyFile]

/-- Claim C8: the validation and the documented forbidden characters
disagree.  `InvalidAppNameChars` maps key 39 (the apostrophe) to the display
character `/` (code 47), so `isValidCordovaAppName` accepts `"/"` and
rejects the apostrophe, while `invalidAppNameCharacters` returns the six
characters `" $ & / < \` including `/`. -/
theorem appName_map_inconsistent :
    isValidCordovaAppName "/" = true ∧
    isValidCordovaAppName (String.mk [Char.ofNat 39]) = false ∧
    (32 ≤ (Char.ofNat 39).toNat) ∧
    invalidAppNameCharacters = ["\"", "$", "&", "/", "<", "\\"] ∧
    "/" ∈ invalidAppNameCharacters := by decide

/-- Claim C9: `cleanseOptions` keeps exactly the entries whose key is not in
the exclusion list, with unchanged values; a null/undefined exclusion list
keeps every entry (and the input, being a value, is never modified). -/
theorem cleanseOptions_spec {V : Type} (options : List (String × V)) :
    cleanseOptions options none = options ∧
    ∀ (ex : List String) (k : String) (v : V),
      ((k, v) ∈ cleanseOptions options (some ex) ↔ (k, v) ∈ options ∧ k ∉ ex) := by
  refine ⟨?_, ?_⟩
  · simp [cleanseOptions]
  · intro ex k v
    simp [cleanseOptions, List.mem_filter, List.elem_iff]

theorem escapeQuotes_eq (l : List Char) :
    escapeQuotes l = l.flatMap fun c => if c = '"' then ['\\', '"'] else [c] := by
  induction l with
  | nil => rfl
  | cons c rest ih => by_cases h : c = '"' <;> simp [escapeQuotes, h, ih]

/-- Claim C10: `quotesAroundIfNecessary` returns the input unchanged when it
contains no space, and otherwise escapes every double quote with a backslash
and surrounds the result with double quotes. -/
theorem quotesAroundIfNecessary_spec (input : String) :
    quotesAroundIfNecessary input =
      if ' ' ∈ input.data then
        String.mk
          ('"' :: (input.data.flatMap fun c => if c = '"' then ['\\', '"'] else [c]) ++ ['"'])
      else input := by
  by_cases h : ' ' ∈ input.data <;>
    simp [quotesAroundIfNecessary, List.contains, List.elem_iff, h, escapeQuotes_eq]

end Taco

namespace Taco

/-- Claim C1 (counterexample): a successful kit selection does not produce a
manifest with only the `kit` key — per the test suite's
`expectedKitTacoJsonKeyValues`, selecting kit `5.1.1-Kit` writes both `kit`
and `cordova-cli`. -/
theorem applySelect_kit_writes_both_keys :
    (applySelect testRegistry (SelectTarget.kitTarget "5.1.1-Kit") cliManifest).1 = none ∧
    (applySelect testRegistry (SelectTarget.kitTarget "5.1.1-Kit") cliManifest).2 ≠
      { kit := some "5.1.1-Kit", cordovaCli := none } ∧
    (applySelect testRegistry (SelectTarget.kitTarget "5.1.1-Kit") cliManifest).2.cordovaCli =
      some "5.1.1" := by decide

/-- Claim C1 (amended): a successful kit selection writes `kit: <id>`
together with the kit's pinned `cordova-cli` version; a successful
CLI-version selection writes exactly `cordova-cli: <version>` with no `kit`
key. -/
theorem applySelect_success_manifest (reg : List Kit) (m m2 : Manifest) :
    (∀ id, applySelect reg (SelectTarget.kitTarget id) m = (none, m2) →
      ∃ k, resolveKit reg id = Except.ok k ∧
        m2 = { kit := some id, cordovaCli := some k.cliVersion }) ∧
    (∀ v, applySelect reg (SelectTarget.cliTarget v) m = (none, m2) →
      m2 = { kit := none, cordovaCli := some v }) := by
  refine ⟨?_, ?_⟩
  · intro id h
    cases hr : resolveKit reg id with
    | ok k =>
      simp [applySelect, hr] at h
      exact ⟨k, rfl, h.symm⟩
    | error e => simp [applySelect, hr] at h
  · intro v h
    by_cases hv : isSemverLike v <;>
      simp [applySelect, resolveCordovaVersion, hv] at h
    exact h.symm

theorem applySelect_success_manifest_witness :
    cliManifest = { kit := none, cordovaCli := some "5.1.1" } :=
  (applySelect_success_manifest testRegistry kitManifest cliManifest).2 "5.1.1" (by decide)

/-- Claim C2 (counterexample): after the failed
`select --cordova InvalidCordovaCliVersion` on the KitMode project, the
manifest is not the single-key object `{kit: "5.1.1-Kit"}` — it still also
carries `cordova-cli: "5.1.1"` (the test suite's
`expectedKitTacoJsonKeyValues`). -/
theorem kitMode_failure_manifest_not_single_key :
    (applySelect testRegistry (SelectTarget.cliTarget "InvalidCordovaCliVersion") kitManifest).2 ≠
      { kit := some "5.1.1-Kit", cordovaCli := none } ∧
    (applySelect testRegistry
        (SelectTarget.cliTarget "InvalidCordovaCliVersion") kitManifest).2.cordovaCli =
      some "5.1.1" := by decide

/-- Claim C2 (amended): a failed selection surfaces the expected error and
leaves the manifest unchanged — `select --kit InvalidKit` on the CliMode
project fails with `InvalidKit` keeping `{cordova-cli: "5.1.1"}`, and
`select --cordova InvalidCordovaCliVersion` on the KitMode project fails
with `InvalidVersion` keeping `{kit: "5.1.1-Kit", cordova-cli: "5.1.1"}`;
in general any failing selection returns the input manifest. -/
theorem applySelect_failure_preserves_manifest :
    applySelect testRegistry (SelectTarget.kitTarget "InvalidKit") cliManifest =
      (some SelectError.invalidKit, cliManifest) ∧
    applySelect testRegistry (SelectTarget.cliTarget "InvalidCordovaCliVersion") kitManifest =
      (some SelectError.invalidVersion, kitManifest) ∧
    ∀ (reg : List Kit) (t : SelectTarget) (m m2 : Manifest) (e : SelectError),
      applySelect reg t m = (some e, m2) → m2 = m := by
  refine ⟨by decide, by decide, ?_⟩
  intro reg t m m2 e h
  cases t with
  | kitTarget id =>
    cases hr : resolveKit reg id <;> simp [applySelect, hr] at h
    exact h.2.symm
  | cliTarget v =>
    by_cases hv : isSemverLike v <;>
      simp [applySelect, resolveCordovaVersion, hv] at h
    exact h.2.symm

theorem applySelect_failure_preserves_manifest_witness :
    (applySelect testRegistry (SelectTarget.kitTarget "InvalidKit") cliManifest).2 =
      cliManifest :=
  applySelect_failure_preserves_manifest.2.2 testRegistry
    (SelectTarget.kitTarget "InvalidKit") cliManifest _ SelectError.invalidKit (by decide)

/-- Claim C7: the telemetry of a kit command records the sub-command (not
PII) and each used option under an `options.` key, with the value marked PII
exactly for the `json` output-path option — so kit IDs and CLI versions are
not PII; the concrete conjuncts are the test suite's expected telemetry for
`select --kit`, `select --cordova` and `list --json`. -/
theorem kitCommandTelemetry_pii (subCmd : String) (opts : List (String × String)) :
    ("subCommand", ({ isPii := false, value := subCmd } : TelemetryValue)) ∈
      kitCommandTelemetry subCmd opts ∧
    (∀ k v, (k, v) ∈ opts →
      ("options." ++ k, ({ isPii := k = "json", value := v } : TelemetryValue)) ∈
        kitCommandTelemetry subCmd opts) ∧
    (∀ jsonPath, kitCommandTelemetry "list" [("json", jsonPath)] =
      [("subCommand", { isPii := false, value := "list" }),
       ("options.json", { isPii := true, value := jsonPath })]) ∧
    kitCommandTelemetry "select" [("kit", "5.1.1-Kit")] =
      [("subCommand", { isPii := false, value := "select" }),
       ("options.kit", { isPii := false, value := "5.1.1-Kit" })] ∧
    kitCommandTelemetry "select" [("cordova", "5.1.1")] =
      [("subCommand", { isPii := false, value := "select" }),
       ("options.cordova", { isPii := false, value := "5.1.1" })] := by
  refine ⟨by simp [kitCommandTelemetry], ?_, ?_, by decide, by decide⟩
  · intro k v hkv
    simp only [kitCommandTelemetry, List.mem_cons, List.mem_map]
    exact Or.inr ⟨(k, v), hkv, rfl⟩
  · intro jsonPath
    simp [kitCommandTelemetry]

theorem kitCommandTelemetry_pii_witness :
    ("options.kit", ({ isPii := false, value := "5.1.1-Kit" } : TelemetryValue)) ∈
      kitCommandTelemetry "select" [("kit", "5.1.1-Kit")] := by
  have h := (kitCommandTelemetry_pii "select" [("kit", "5.1.1-Kit")]).2.1 "kit" "5.1.1-Kit"
    (by decide)
  simpa using h

end Taco

namespace Taco

theorem probeSegments_cons (p : Platform) (outcome : Nat → MkdirOutcome)
    (seg : String) (rest : List String) (i : Nat) (acc : List String) :
    probeSegments p outcome (seg :: rest) i acc =
      if i = 0 ∧ p = Platform.win32 ∧ isDriveLetterSegment seg = true then
        probeSegments p outcome rest (i + 1) acc
      else
        match outcome i with
        | MkdirOutcome.created => probeSegments p outcome rest (i + 1) (acc ++ [seg])
        | MkdirOutcome.enoentErr => (true, acc)
        | MkdirOutcome.otherError => probeSegments p outcome rest (i + 1) acc := rfl

theorem probeSegments_fst_of_pos (p : Platform) (outcome : Nat → MkdirOutcome) :
    ∀ (l : List String) (i : Nat) (acc : List String), 1 ≤ i →
      ((probeSegments p outcome l i acc).1 = true ↔
        ∃ j, j < l.length ∧ outcome (i + j) = MkdirOutcome.enoentErr) := by
  intro l
  induction l with
  | nil => intro i acc _; simp [probeSegments]
  | cons seg rest ih =>
    intro i acc hi
    have hskip : ¬ (i = 0 ∧ p = Platform.win32 ∧ isDriveLetterSegment seg = true) := by
      rintro ⟨h0, -⟩; omega
    rw [probeSegments_cons, if_neg hskip]
    cases ho : outcome i with
    | created =>
      rw [ih (i + 1) (acc ++ [seg]) (by omega)]
      constructor
      · rintro ⟨j, hj, hout⟩
        refine ⟨j + 1, by simpa using Nat.succ_lt_succ hj, ?_⟩
        rw [show i + (j + 1) = i + 1 + j by omega]
        exact hout
      · rintro ⟨j, hj, hout⟩
        cases j with
        | zero =>
          rw [Nat.add_zero] at hout
          rw [ho] at hout
          cases hout
        | succ j2 =>
          refine ⟨j2, by simpa using Nat.lt_of_succ_lt_succ hj, ?_⟩
          rw [show i + 1 + j2 = i + (j2 + 1) by omega]
          exact hout
    | enoentErr =>
      constructor
      · intro _
        exact ⟨0, by simp, by rw [Nat.add_zero]; exact ho⟩
      · intro _; rfl
    | otherError =>
      rw [ih (i + 1) acc (by omega)]
      constructor
      · rintro ⟨j, hj, hout⟩
        refine ⟨j + 1, by simpa using Nat.succ_lt_succ hj, ?_⟩
        rw [show i + (j + 1) = i + 1 + j by omega]
        exact hout
      · rintro ⟨j, hj, hout⟩
        cases j with
        | zero =>
          rw [Nat.add_zero] at hout
          rw [ho] at hout
          cases hout
        | succ j2 =>
          refine ⟨j2, by simpa using Nat.lt_of_succ_lt_succ hj, ?_⟩
          rw [show i + 1 + j2 = i + (j2 + 1) by omega]
          exact hout

end Taco

namespace Taco

theorem probeSegments_skip (p : Platform) (outcome : Nat → MkdirOutcome)
    (seg : String) (rest : List String) (i : Nat) (acc : List String)
    (hskip : i = 0 ∧ p = Platform.win32 ∧ isDriveLetterSegment seg = true) :
    probeSegments p outcome (seg :: rest) i acc =
      probeSegments p outcome rest (i + 1) acc := by
  rw [probeSegments_cons, if_pos hskip]

theorem probeSegments_created (p : Platform) (outcome : Nat → MkdirOutcome)
    (seg : String) (rest : List String) (i : Nat) (acc : List String)
    (hskip : ¬ (i = 0 ∧ p = Platform.win32 ∧ isDriveLetterSegment seg = true))
    (ho : outcome i = MkdirOutcome.created) :
    probeSegments p outcome (seg :: rest) i acc =
      probeSegments p outcome rest (i + 1) (acc ++ [seg]) := by
  rw [probeSegments_cons, if_neg hskip, ho]

theorem probeSegments_enoent (p : Platform) (outcome : Nat → MkdirOutcome)
    (seg : String) (rest : List String) (i : Nat) (acc : List String)
    (hskip : ¬ (i = 0 ∧ p = Platform.win32 ∧ isDriveLetterSegment seg = true))
    (ho : outcome i = MkdirOutcome.enoentErr) :
    probeSegments p outcome (seg :: rest) i acc = (true, acc) := by
  rw [probeSegments_cons, if_neg hskip, ho]

theorem probeSegments_other (p : Platform) (outcome : Nat → MkdirOutcome)
    (seg : String) (rest : List String) (i : Nat) (acc : List String)
    (hskip : ¬ (i = 0 ∧ p = Platform.win32 ∧ isDriveLetterSegment seg = true))
    (ho : outcome i = MkdirOutcome.otherError) :
    probeSegments p outcome (seg :: rest) i acc =
      probeSegments p outcome rest (i + 1) acc := by
  rw [probeSegments_cons, if_neg hskip, ho]

/-- Claim C5: `isPathValid` splits the path on `path.sep`, skips the first
segment when it is a drive letter on win32, and returns false exactly when
some tested segment's creation attempt fails with `ENOENT`; a segment that
is created or fails with any other error never makes the path invalid. -/
theorem isPathValid_spec (p : Platform) (outcome : Nat → MkdirOutcome) (s : String) :
    isPathValid p outcome s = false ↔
      ∃ i, i < (pathSegments p s).length ∧
        ¬ (i = 0 ∧ p = Platform.win32 ∧
            isDriveLetterSegment ((pathSegments p s).getD i "") = true) ∧
        outcome i = MkdirOutcome.enoentErr := by
  unfold isPathValid
  rw [Bool.not_eq_false']
  cases hsegs : pathSegments p s with
  | nil => simp [probeSegments]
  | cons seg rest =>
    by_cases hdl : p = Platform.win32 ∧ isDriveLetterSegment seg = true
    · rw [probeSegments_skip p outcome seg rest 0 [] ⟨rfl, hdl⟩,
        probeSegments_fst_of_pos p outcome rest 1 [] (Nat.le_refl 1)]
      constructor
      · rintro ⟨j, hj, hout⟩
        refine ⟨j + 1, by simpa using Nat.succ_lt_succ hj, ?_, ?_⟩
        · rintro ⟨h0, -⟩; exact Nat.succ_ne_zero j h0
        · rw [show j + 1 = 1 + j by omega]; exact hout
      · rintro ⟨i, hi, hneg, hout⟩
        cases i with
        | zero => exact absurd ⟨rfl, hdl.1, by simpa using hdl.2⟩ hneg
        | succ j =>
          refine ⟨j, by simpa using Nat.lt_of_succ_lt_succ hi, ?_⟩
          rw [show 1 + j = j + 1 by omega]; exact hout
    · have hskip : ¬ ((0 : Nat) = 0 ∧ p = Platform.win32 ∧
          isDriveLetterSegment seg = true) := by
        rintro ⟨-, hw, hd⟩; exact hdl ⟨hw, hd⟩
      cases ho : outcome 0 with
      | created =>
        rw [probeSegments_created p outcome seg rest 0 [] hskip ho,
          probeSegments_fst_of_pos p outcome rest 1 ([] ++ [seg]) (Nat.le_refl 1)]
        constructor
        · rintro ⟨j, hj, hout⟩
          refine ⟨j + 1, by simpa using Nat.succ_lt_succ hj, ?_, ?_⟩
          · rintro ⟨h0, -⟩; exact Nat.succ_ne_zero j h0
          · rw [show j + 1 = 1 + j by omega]; exact hout
        · rintro ⟨i, hi, hneg, hout⟩
          cases i with
          | zero => rw [ho] at hout; cases hout
          | succ j =>
            refine ⟨j, by simpa using Nat.lt_of_succ_lt_succ hi, ?_⟩
            rw [show 1 + j = j + 1 by omega]; exact hout
      | enoentErr =>
        rw [probeSegments_enoent p outcome seg rest 0 [] hskip ho]
        constructor
        · intro _
          refine ⟨0, by simp, ?_, ho⟩
          simpa using hskip
        · intro _; rfl
      | otherError =>
        rw [probeSegments_other p outcome seg rest 0 [] hskip ho,
          probeSegments_fst_of_pos p outcome rest 1 [] (Nat.le_refl 1)]
        constructor
        · rintro ⟨j, hj, hout⟩
          refine ⟨j + 1, by simpa using Nat.succ_lt_succ hj, ?_, ?_⟩
          · rintro ⟨h0, -⟩; exact Nat.succ_ne_zero j h0
          · rw [show j + 1 = 1 + j by omega]; exact hout
        · rintro ⟨i, hi, hneg, hout⟩
          cases i with
          | zero => rw [ho] at hout; cases hout
          | succ j =>
            refine ⟨j, by simpa using Nat.lt_of_succ_lt_succ hi, ?_⟩
            rw [show 1 + j = j + 1 by omega]; exact hout

end Taco

namespace Taco

/-- Claim C6: the cleanup is invoked on `currentPath`, which by then has
advanced to the deepest successfully created directory, not on the scratch
directory itself — validating the one-segment path `"foo"` (all creations
succeeding) targets `scratch/foo` with the final `rimraf`, so the scratch
directory itself (and in deeper paths every intermediate segment directory)
is left behind on the validation's own logic path. -/
theorem isPathValid_cleanup_bug :
    isPathValid Platform.linux (fun _ => MkdirOutcome.created) "foo" = true ∧
    rimrafTarget ["tmp", "scratch"] Platform.linux (fun _ => MkdirOutcome.created) "foo" =
      ["tmp", "scratch", "foo"] ∧
    rimrafTarget ["tmp", "scratch"] Platform.linux (fun _ => MkdirOutcome.created) "foo" ≠
      ["tmp", "scratch"] ∧
    rimrafTarget ["tmp", "scratch"] Platform.linux (fun _ => MkdirOutcome.created) "a/b" =
      ["tmp", "scratch", "a", "b"] := by decide

end Taco
